import Mathlib

/-!
Verification development for `offline_workflow_manager.py`: a shallow
embedding of its SQLite-backed data model and of the operations
`init_db`, `add_employee`, `list_employees`, `add_task`, `list_tasks`,
`update_task_status` and `export_csv`, together with theorems settling
the specification's claims about them.

Modelling conventions:
* a SQLite table is a `List` of row structures, with the
  `AUTOINCREMENT` primary key carried as an explicit next-id counter;
* `NULL`-able columns are `Option`; the `INTEGER` column `active` is a
  `Nat` (SQLite has no boolean type);
* operations that can hit a `CHECK` constraint return `Except String`;
* wall-clock time (`datetime.now()`) is passed in explicitly as a
  `PyDateTime` value, and `strftime(DATE_FMT)` is embedded as a pure
  formatting function.
-/

namespace OWM

/-- One row of the `employees` table
(`id INTEGER PRIMARY KEY AUTOINCREMENT, name TEXT NOT NULL, role TEXT
CHECK(role IN ('staff','manager')) NOT NULL, active INTEGER NOT NULL`). -/
structure Employee where
  id : Nat
  name : String
  role : String
  active : Nat
  deriving Repr, DecidableEq

/-- One row of the `tasks` table. `description`, `assignee_id` and
`deadline` are nullable; `status` is constrained by a CHECK clause;
`created` and `updated` are `TEXT NOT NULL` timestamps. -/
structure Task where
  id : Nat
  title : String
  description : Option String
  assignee_id : Option Nat
  status : String
  deadline : Option String
  created : String
  updated : String
  deriving Repr, DecidableEq

/-- One row of the `shifts` table (schema-only in the program; the field
`start_` embeds the column `start` and `end_` the column `end`). -/
structure Shift where
  id : Nat
  employee_id : Option Nat
  start_ : String
  end_ : String
  deriving Repr, DecidableEq

/-- The database contents after `init_db` has run: the three tables plus
the AUTOINCREMENT counters that produce fresh surrogate keys. -/
structure DB where
  employees : List Employee
  tasks : List Task
  shifts : List Shift
  nextEmployeeId : Nat
  nextTaskId : Nat
  nextShiftId : Nat
  deriving Repr, DecidableEq

/-- A database file as seen by `init_db`: each of the three tables is
either absent (`none`, as in a fresh `workflow.db`) or present with its
rows. Counters are part of the bookkeeping. -/
structure Store where
  employeesTab : Option (List Employee)
  tasksTab : Option (List Task)
  shiftsTab : Option (List Shift)
  nextEmployeeId : Nat
  nextTaskId : Nat
  nextShiftId : Nat
  deriving Repr, DecidableEq

/-- The fresh database file before any table exists. -/
def Store.fresh : Store :=
  { employeesTab := none, tasksTab := none, shiftsTab := none
    nextEmployeeId := 1, nextTaskId := 1, nextShiftId := 1 }

/-- Embeds `init_db`: three `CREATE TABLE IF NOT EXISTS` statements. A
table that exists is left untouched (rows included); an absent table is
created empty. -/
def init_db (s : Store) : Store :=
  { s with
    employeesTab := some (s.employeesTab.getD [])
    tasksTab := some (s.tasksTab.getD [])
    shiftsTab := some (s.shiftsTab.getD []) }

/-- View of an initialized store as a `DB` (all three tables present,
absent read as empty — after `init_db` they are never absent). -/
def Store.toDB (s : Store) : DB :=
  { employees := s.employeesTab.getD []
    tasks := s.tasksTab.getD []
    shifts := s.shiftsTab.getD []
    nextEmployeeId := s.nextEmployeeId
    nextTaskId := s.nextTaskId
    nextShiftId := s.nextShiftId }

/-- A local wall-clock reading, as `datetime.datetime.now()` returns it
(seconds and finer are dropped by the format `DATE_FMT`). Python's
`datetime` guarantees `1 <= year <= 9999`, `1 <= month <= 12`, etc. -/
structure PyDateTime where
  year : Nat
  month : Nat
  day : Nat
  hour : Nat
  minute : Nat
  deriving Repr, DecidableEq

/-- The last decimal digit of `n` as a character. -/
def digitAt (n : Nat) : Char := Nat.digitChar (n % 10)

/-- Embeds `datetime.strftime(DATE_FMT)` with
`DATE_FMT = "%Y-%m-%d %H:%M"`: the year zero-padded to four digits, the
other fields to two. Faithful to Python on the `datetime` domain
(`year <= 9999`, `month, day, hour, minute <= 99`). -/
def strftimeDateFmt (d : PyDateTime) : String :=
  String.mk
    [digitAt (d.year / 1000), digitAt (d.year / 100), digitAt (d.year / 10),
     digitAt d.year, '-',
     digitAt (d.month / 10), digitAt d.month, '-',
     digitAt (d.day / 10), digitAt d.day, ' ',
     digitAt (d.hour / 10), digitAt d.hour, ':',
     digitAt (d.minute / 10), digitAt d.minute]

/-- Does a string match the timestamp shape `YYYY-MM-DD HH:MM`
(digits in the numeric positions, literal separators elsewhere)? -/
def matchesDateFmt (s : String) : Bool :=
  match s.data with
  | [y1, y2, y3, y4, s1, m1, m2, s2, d1, d2, s3, h1, h2, s4, n1, n2] =>
    y1.isDigit && y2.isDigit && y3.isDigit && y4.isDigit && s1 = '-' &&
    m1.isDigit && m2.isDigit && s2 = '-' && d1.isDigit && d2.isDigit &&
    s3 = ' ' && h1.isDigit && h2.isDigit && s4 = ':' &&
    n1.isDigit && n2.isDigit
  | _ => false

/-- The `role` CHECK constraint of the `employees` table:
`role IN ('staff', 'manager')`. -/
def validRole (r : String) : Bool :=
  r = "staff" || r = "manager"

/-- The `status` CHECK constraint of the `tasks` table:
`status IN ('todo', 'in‑progress', 'done')`. Note the middle value is
spelled with the non-breaking hyphen U+2011, exactly as in the source. -/
def validTaskStatus (s : String) : Bool :=
  s = "todo" || s = "in‑progress" || s = "done"

/-- Embeds `add_employee(name, role)`: `INSERT INTO employees
(name, role, active) VALUES (?,?,1)`. The insert trips the `role`
CHECK constraint when the role is invalid (an `IntegrityError`). -/
def add_employee (name role : String) (db : DB) : Except String DB :=
  if validRole role then
    .ok { db with
          employees := db.employees ++
            [{ id := db.nextEmployeeId, name := name, role := role, active := 1 }]
          nextEmployeeId := db.nextEmployeeId + 1 }
  else
    .error "CHECK constraint failed: employees"

/-- Embeds the query of `list_employees(active_only)`:
`SELECT id, name, role, active FROM employees` with
`WHERE active=1` appended when `active_only` is true. Rows come back in
storage order. -/
def list_employees_rows (active_only : Bool) (db : DB) :
    List (Nat × String × String × Nat) :=
  (if active_only then db.employees.filter (fun e => e.active == 1)
   else db.employees).map (fun e => (e.id, e.name, e.role, e.active))

/-- Embeds `add_task(title, description, assignee_id, deadline)`:
computes `now = datetime.now().strftime(DATE_FMT)` and runs
`INSERT INTO tasks (title, description, assignee_id, deadline, created,
updated) VALUES (?,?,?,?,?,?)`; `status` takes its column default
`'todo'`, which satisfies the CHECK constraint, so the insert cannot
fail on constraints. -/
def add_task (title description : String) (assignee_id : Option Nat)
    (deadline : Option String) (nowDT : PyDateTime) (db : DB) : DB :=
  let now := strftimeDateFmt nowDT
  { db with
    tasks := db.tasks ++
      [{ id := db.nextTaskId, title := title, description := some description,
         assignee_id := assignee_id, status := "todo", deadline := deadline,
         created := now, updated := now }]
    nextTaskId := db.nextTaskId + 1 }

/-- Embeds `update_task_status(task_id, status)`: computes
`now = datetime.now().strftime(DATE_FMT)` and runs `UPDATE tasks SET
status=?, updated=? WHERE id=?`. The UPDATE trips the `status` CHECK
constraint only when some row actually matches; with no matching row it
affects zero rows and succeeds. -/
def update_task_status (task_id : Nat) (status : String) (nowDT : PyDateTime)
    (db : DB) : Except String DB :=
  if db.tasks.any (fun t => t.id == task_id) && !validTaskStatus status then
    .error "CHECK constraint failed: tasks"
  else
    .ok { db with
          tasks := db.tasks.map (fun t =>
            if t.id == task_id then
              { t with status := status, updated := strftimeDateFmt nowDT }
            else t) }

/-- A row of the `list_tasks` query `SELECT t.id, t.title, e.name,
t.status, t.deadline FROM tasks t LEFT JOIN employees e ON
t.assignee_id = e.id`: the joined employee name is `NULL` when the
task is unassigned or the reference dangles. -/
structure TaskRow where
  id : Nat
  title : String
  ename : Option String
  status : String
  deadline : Option String
  deriving Repr, DecidableEq

/-- The LEFT JOIN lookup for one task: the employee whose `id` matches
`assignee_id`, if any. Because `id` is the PRIMARY KEY of `employees`,
at most one row can match, so `find?` is the exact join semantics. -/
def joinName (db : DB) (t : Task) : Option String :=
  match t.assignee_id with
  | none => none
  | some a => (db.employees.find? (fun e => e.id == a)).map (fun e => e.name)

/-- Embeds the query of `list_tasks(filter_status)`: the LEFT JOIN
above, with `WHERE t.status=?` appended when a filter is given. -/
def list_tasks_rows (filter_status : Option String) (db : DB) : List TaskRow :=
  let selected : List Task :=
    match filter_status with
    | none => db.tasks
    | some fs => db.tasks.filter (fun t => t.status == fs)
  selected.map
    (fun t => { id := t.id, title := t.title, ename := joinName db t,
                status := t.status, deadline := t.deadline })

/-- Embeds Python's `x or dflt` on a nullable string: the default is
taken both when `x` is `None` and when it is the (falsy) empty
string. -/
def pyOrStr (x : Option String) (dflt : String) : String :=
  match x with
  | none => dflt
  | some s => if s = "" then dflt else s

/-- Left-justify a string in the given width, as Python's
`f"{s:<w>}"` does for strings (shorter strings are padded with
spaces on the right, longer ones kept whole). -/
def ljust (s : String) (w : Nat) : String :=
  s ++ String.mk (List.replicate (w - s.length) ' ')

/-- Right-justify a string in the given width, as Python's `f"{n:<w>}"`
does for numbers. -/
def rjust (s : String) (w : Nat) : String :=
  String.mk (List.replicate (w - s.length) ' ') ++ s

/-- Embeds the line `list_tasks` prints per row:
`f"#{row[0]:3} | {row[1]:25} | {(row[2] or 'unassigned'):15} |
{row[3]:12} | {row[4] or '-'}"`. -/
def taskLine (r : TaskRow) : String :=
  "#" ++ rjust (toString r.id) 3 ++ " | " ++ ljust r.title 25 ++ " | " ++
  ljust (pyOrStr r.ename "unassigned") 15 ++ " | " ++ ljust r.status 12 ++
  " | " ++ pyOrStr r.deadline "-"

/-- The lines `list_tasks(filter_status)` prints, in order. -/
def list_tasks_lines (filter_status : Option String) (db : DB) : List String :=
  (list_tasks_rows filter_status db).map taskLine

/-- Embeds the line `list_employees` prints per row:
`f"#{row[0]:3} | {row[1]:20} | {row[2]:8} | {'active' if row[3] else
'inactive'}"`. -/
def employeeLine (r : Nat × String × String × Nat) : String :=
  "#" ++ rjust (toString r.1) 3 ++ " | " ++ ljust r.2.1 20 ++ " | " ++
  ljust r.2.2.1 8 ++ " | " ++ (if r.2.2.2 ≠ 0 then "active" else "inactive")

/-- The lines `list_employees(active_only)` prints, in order. -/
def list_employees_lines (active_only : Bool) (db : DB) : List String :=
  (list_employees_rows active_only db).map employeeLine

/-- SQLite value rendering used by `csv.writer`: `None` becomes the
empty cell, other values their string form. -/
def cellOf : Option String → String
  | none => ""
  | some s => s

/-- The column names `SELECT *` reports for a table, in schema order
(`cur.description` in the source). -/
def tableCols : String → List String
  | "employees" => ["id", "name", "role", "active"]
  | "tasks" => ["id", "title", "description", "assignee_id", "status",
                "deadline", "created", "updated"]
  | "shifts" => ["id", "employee_id", "start", "end"]
  | _ => []

/-- The rows `SELECT * FROM <table>` returns, each rendered to CSV
cells in schema column order. -/
def tableRows (db : DB) : String → List (List String)
  | "employees" => db.employees.map (fun e =>
      [toString e.id, e.name, e.role, toString e.active])
  | "tasks" => db.tasks.map (fun t =>
      [toString t.id, t.title, cellOf t.description,
       cellOf (t.assignee_id.map toString), t.status, cellOf t.deadline,
       t.created, t.updated])
  | "shifts" => db.shifts.map (fun s =>
      [toString s.id, cellOf (s.employee_id.map toString), s.start_, s.end_])
  | _ => []

/-- Embeds the loop body of `export_csv`: for each of the three tables,
one file `<table>.csv` holding the header record (the column names)
followed by one CSV record per stored row. -/
def export_csv (db : DB) : List (String × List (List String)) :=
  ["employees", "tasks", "shifts"].map (fun table =>
    (table ++ ".csv", tableCols table :: tableRows db table))

/-- The `choices` list argparse enforces for the `status` argument of
`update-task` (and of `list-tasks --status`): spelled in the source
with the non-breaking hyphen U+2011 in the middle value. -/
def updateTaskStatusChoices : List String :=
  ["todo", "in‑progress", "done"]

/-- The `choices` list argparse enforces for `add-employee --role`. -/
def addEmployeeRoleChoices : List String :=
  ["staff", "manager"]

/-- A parsed CLI command, as `parse_args` hands it to `main`. -/
inductive Cmd where
  | addEmployee (name role : String)
  | listEmployees (all : Bool)
  | addTask (title desc : String) (assignee : Option Nat) (deadline : Option String)
  | listTasks (status : Option String)
  | updateTask (id : Nat) (status : String)
  | export
  deriving Repr, DecidableEq

/-- Embeds the dispatch in `main`: each command maps to one database
operation; the result is the new database plus the lines printed to
stdout, or an uncaught storage error (non-zero exit). The export
command's files are produced by `export_csv`; here only its
confirmation line is kept. -/
def runCommand (c : Cmd) (nowDT : PyDateTime) (stamp : String) (db : DB) :
    Except String (DB × List String) :=
  match c with
  | .addEmployee name role =>
    (add_employee name role db).map (fun db' => (db', []))
  | .listEmployees all =>
    .ok (db, list_employees_lines (!all) db)
  | .addTask title desc assignee deadline =>
    .ok (add_task title desc assignee deadline nowDT db, [])
  | .listTasks status =>
    .ok (db, list_tasks_lines status db)
  | .updateTask id status =>
    (update_task_status id status nowDT db).map (fun db' => (db', []))
  | .export =>
    .ok (db, ["Exported to export_" ++ stamp ++ "/"])

/-! Helper lemmas shared by the claim theorems. -/

theorem digitAt_isDigit (n : Nat) : (digitAt n).isDigit = true := by
  have hb : ∀ k, k < 10 → (Nat.digitChar k).isDigit = true := by decide
  exact hb (n % 10) (Nat.mod_lt _ (by norm_num))

theorem matchesDateFmt_strftime (d : PyDateTime) :
    matchesDateFmt (strftimeDateFmt d) = true := by
  simp [matchesDateFmt, strftimeDateFmt, digitAt_isDigit]

theorem map_id_of_no_match (tid : Nat) (st up : String) (l : List Task)
    (h : ∀ t ∈ l, t.id ≠ tid) :
    l.map (fun t => if t.id == tid then { t with status := st, updated := up }
                    else t) = l := by
  induction l with
  | nil => rfl
  | cons a l ih =>
    have ha : (a.id == tid) = false := by
      simp only [beq_eq_false_iff_ne]
      exact h a (List.mem_cons_self a l)
    simp only [List.map_cons, ha, if_neg (by simp [ha] : ¬(a.id == tid) = true)]
    rw [ih (fun t ht => h t (List.mem_cons_of_mem a ht))]
    simp [ha]

/-- C1: updating a non-existent task id succeeds, prints nothing and
leaves the database untouched: the `UPDATE` matches zero rows, so no
CHECK fires, the table map is the identity, and the command exits with
success status. -/
theorem claim_C1 (db : DB) (tid : Nat) (s : String) (now : PyDateTime)
    (stamp : String) (h : ∀ t ∈ db.tasks, t.id ≠ tid) :
    runCommand (.updateTask tid s) now stamp db = .ok (db, []) := by
  have hany : db.tasks.any (fun t => t.id == tid) = false := by
    simp only [List.any_eq_false]
    intro t ht
    simp [h t ht]
  simp only [runCommand, update_task_status, hany, Bool.false_and, Bool.false_eq_true,
    if_false, map_id_of_no_match tid s (strftimeDateFmt now) db.tasks h]
  rfl

/-- Witness for C1: a fresh initialized database has no task with id 1,
and updating it is a visible no-op. -/
theorem claim_C1_witness :
    runCommand (.updateTask 1 "done")
      { year := 2024, month := 5, day := 6, hour := 7, minute := 8 } "x"
      (Store.toDB (init_db Store.fresh)) =
      .ok (Store.toDB (init_db Store.fresh), []) :=
  claim_C1 _ 1 "done" _ "x" (by simp [Store.fresh, init_db, Store.toDB])

/-- C2 counter-evidence: the CLI `choices` list for `update-task`
status (and the tasks-table CHECK constraint) spell the middle value
with the non-breaking hyphen U+2011, so the ASCII-hyphen spelling
`in-progress` that the spec enumerates is rejected at the parsing
boundary, while `todo` and `done` are accepted. -/
theorem claim_C2 :
    "in-progress" ∉ updateTaskStatusChoices ∧
    validTaskStatus "in-progress" = false ∧
    "todo" ∈ updateTaskStatusChoices ∧
    "done" ∈ updateTaskStatusChoices ∧
    "in‑progress" ∈ updateTaskStatusChoices ∧
    "in-progress" ≠ "in‑progress" := by
  refine ⟨?_, rfl, ?_, ?_, ?_, ?_⟩ <;> decide

/-- C3: updating an existing task with a status accepted by the CHECK
constraint succeeds and rewrites that task's status to the new value
and its `updated` field to the current timestamp; whenever the clock
reading is not earlier than the prior `updated` value, the new
`updated` value is ≥ the prior one. -/
theorem claim_C3 (db : DB) (tid : Nat) (s : String) (now : PyDateTime)
    (t : Task) (ht : t ∈ db.tasks) (hid : t.id = tid)
    (hs : validTaskStatus s = true)
    (hclock : t.updated ≤ strftimeDateFmt now) :
    ∃ db', update_task_status tid s now db = .ok db' ∧
      ∃ t' ∈ db'.tasks, t'.id = tid ∧ t'.status = s ∧
        t'.updated = strftimeDateFmt now ∧ t.updated ≤ t'.updated := by
  have hok : update_task_status tid s now db =
      .ok { db with tasks := db.tasks.map (fun x =>
        if x.id == tid then { x with status := s, updated := strftimeDateFmt now }
        else x) } := by
    simp [update_task_status, hs]
  refine ⟨_, hok, { t with status := s, updated := strftimeDateFmt now },
    ?_, hid, rfl, rfl, hclock⟩
  have hmem := List.mem_map_of_mem (fun x : Task =>
    if x.id == tid then { x with status := s, updated := strftimeDateFmt now }
    else x) ht
  simpa [hid] using hmem

/-- A fixed wall-clock reading used by concrete witnesses. -/
def dtW : PyDateTime :=
  { year := 2024, month := 5, day := 6, hour := 7, minute := 8 }

/-- A one-task database used by concrete witnesses. -/
def dbW : DB :=
  { employees := [], shifts := [],
    tasks := [{ id := 1, title := "t", description := some "",
                assignee_id := none, status := "todo", deadline := none,
                created := "2024-01-01 00:00",
                updated := "2024-01-01 00:00" }],
    nextEmployeeId := 1, nextTaskId := 2, nextShiftId := 1 }

/-- Witness for C3: the concrete one-task database updated to `done`. -/
theorem claim_C3_witness :
    ∃ db', update_task_status 1 "done" dtW dbW = .ok db' ∧
      ∃ t' ∈ db'.tasks, t'.id = 1 ∧ t'.status = "done" ∧
        t'.updated = strftimeDateFmt dtW ∧
        "2024-01-01 00:00" ≤ t'.updated :=
  claim_C3 dbW 1 "done" dtW
    { id := 1, title := "t", description := some "",
      assignee_id := none, status := "todo", deadline := none,
      created := "2024-01-01 00:00", updated := "2024-01-01 00:00" }
    (List.mem_singleton.mpr rfl) rfl rfl
    (by rw [String.le_iff_toList_le]; decide)

/-- C4: a task inserted by `add_task` lands in the table with
`created` equal to `updated`, and both match `YYYY-MM-DD HH:MM`. -/
theorem claim_C4 (title desc : String) (a : Option Nat) (dl : Option String)
    (now : PyDateTime) (db : DB) :
    ∃ t ∈ (add_task title desc a dl now db).tasks,
      t.id = db.nextTaskId ∧ t.created = t.updated ∧
      matchesDateFmt t.created = true ∧ matchesDateFmt t.updated = true := by
  refine ⟨_, List.mem_append_right _ (List.mem_singleton.mpr rfl), rfl, rfl,
    matchesDateFmt_strftime now, matchesDateFmt_strftime now⟩

/-- C5: adding an employee with a valid role succeeds, and listing with
`active_only = false` afterwards contains a record with that name, that
role, and the active flag set. -/
theorem claim_C5 (name role : String) (db : DB) (h : validRole role = true) :
    ∃ db', add_employee name role db = .ok db' ∧
      (db.nextEmployeeId, name, role, 1) ∈ list_employees_rows false db' := by
  have hok : add_employee name role db = .ok { db with employees := db.employees ++ [{ id := db.nextEmployeeId, name := name, role := role, active := 1 }], nextEmployeeId := db.nextEmployeeId + 1 } := by
    simp [add_employee, h]
  refine ⟨_, hok, ?_⟩
  have hmem : ({ id := db.nextEmployeeId, name := name, role := role, active := 1 } : Employee) ∈ db.employees ++ [{ id := db.nextEmployeeId, name := name, role := role, active := 1 }] :=
    List.mem_append_right _ (List.mem_singleton.mpr rfl)
  simp only [list_employees_rows, Bool.if_false_right]
  exact List.mem_map_of_mem (fun e : Employee => (e.id, e.name, e.role, e.active)) hmem

/-- Witness for C5: adding a manager to the concrete database. -/
theorem claim_C5_witness :
    ∃ db', add_employee "Alice" "manager" dbW = .ok db' ∧
      (1, "Alice", "manager", 1) ∈ list_employees_rows false db' :=
  claim_C5 "Alice" "manager" dbW rfl

/-- C6: listing with `active_only = true` never returns a record whose
active flag is false (the `WHERE active=1` filter admits only rows with
the flag set). -/
theorem claim_C6 (db : DB) (r : Nat × String × String × Nat)
    (h : r ∈ list_employees_rows true db) : r.2.2.2 ≠ 0 := by
  simp only [list_employees_rows, List.mem_map] at h
  obtain ⟨e, he, rfl⟩ := h
  have := (List.mem_filter.mp he).2
  simp only [beq_iff_eq] at this
  simp [this]

/-- Witness for C6: the one active employee in a concrete database. -/
theorem claim_C6_witness : ((1 : Nat), "Alice", "staff", (1 : Nat)).2.2.2 ≠ 0 :=
  claim_C6
    { employees := [{ id := 1, name := "Alice", role := "staff", active := 1 }],
      tasks := [], shifts := [],
      nextEmployeeId := 2, nextTaskId := 1, nextShiftId := 1 }
    (1, "Alice", "staff", 1) (by simp [list_employees_rows])

/-- A database exhibiting the C7 counterexample: an employee whose name
is the empty string, and a task assigned to that employee. -/
def db_C7 : DB :=
  { employees := [{ id := 1, name := "", role := "staff", active := 1 }],
    tasks := [{ id := 1, title := "t", description := some "",
                assignee_id := some 1, status := "todo", deadline := none,
                created := "2024-01-01 00:00", updated := "2024-01-01 00:00" }],
    shifts := [], nextEmployeeId := 2, nextTaskId := 2, nextShiftId := 1 }

/-- C7 counterexample: in `db_C7` the task's assignee exists (employee
id 1), yet the assignee field printed for it is the placeholder
`unassigned`, not that employee's name (the empty string): Python's
`row[2] or 'unassigned'` treats the falsy empty string like NULL. -/
theorem claim_C7_counterexample :
    (∃ e ∈ db_C7.employees, e.id = 1 ∧ e.name = "") ∧
    (∃ t ∈ db_C7.tasks, t.assignee_id = some 1) ∧
    (list_tasks_rows none db_C7).map (fun r => pyOrStr r.ename "unassigned") =
      ["unassigned"] ∧
    "unassigned" ≠ "" := by
  refine ⟨⟨_, List.mem_singleton.mpr rfl, rfl, rfl⟩,
    ⟨_, List.mem_singleton.mpr rfl, rfl⟩, ?_, by decide⟩
  rfl

/-- C7 (amended): every selected task appears as a joined row; a task
with no assignee, a dangling assignee, or an assignee whose stored name
is the empty string is shown with the placeholder `unassigned`; a task
whose assignee exists with a non-empty name is shown with that name;
and a task with no deadline is shown with the placeholder `-`. -/
theorem claim_C7 (db : DB) (fs : Option String) (t : Task)
    (ht : t ∈ db.tasks) (hsel : ∀ s, fs = some s → t.status = s) :
    ({ id := t.id, title := t.title, ename := joinName db t,
       status := t.status, deadline := t.deadline } : TaskRow) ∈
      list_tasks_rows fs db ∧
    (t.assignee_id = none → pyOrStr (joinName db t) "unassigned" = "unassigned") ∧
    (∀ a, t.assignee_id = some a →
      db.employees.find? (fun e => e.id == a) = none →
      pyOrStr (joinName db t) "unassigned" = "unassigned") ∧
    (∀ a e, t.assignee_id = some a →
      db.employees.find? (fun e => e.id == a) = some e → e.name ≠ "" →
      pyOrStr (joinName db t) "unassigned" = e.name) ∧
    (∀ a e, t.assignee_id = some a →
      db.employees.find? (fun e => e.id == a) = some e → e.name = "" →
      pyOrStr (joinName db t) "unassigned" = "unassigned") ∧
    (t.deadline = none → pyOrStr t.deadline "-" = "-") := by
  refine ⟨?_, ?_, ?_, ?_, ?_, ?_⟩
  · have hmem : t ∈ (match fs with
        | none => db.tasks
        | some s => db.tasks.filter (fun x => x.status == s)) := by
      cases fs with
      | none => exact ht
      | some s =>
        exact List.mem_filter.mpr ⟨ht, by simp [hsel s rfl]⟩
    exact List.mem_map_of_mem
      (fun t : Task => ({ id := t.id, title := t.title, ename := joinName db t, status := t.status, deadline := t.deadline } : TaskRow)) hmem
  · intro ha; simp [joinName, ha, pyOrStr]
  · intro a ha hf; simp [joinName, ha, hf, pyOrStr]
  · intro a e ha hf hn; simp [joinName, ha, hf, pyOrStr, hn]
  · intro a e ha hf hn; simp [joinName, ha, hf, pyOrStr, hn]
  · intro hd; simp [hd, pyOrStr]

/-- The task of `db_C7W`, assigned to employee 1. -/
def t_C7W : Task :=
  { id := 1, title := "t", description := some "", assignee_id := some 1,
    status := "todo", deadline := none,
    created := "2024-01-01 00:00", updated := "2024-01-01 00:00" }

/-- A database with one named employee and one task assigned to them,
used to witness the amended C7. -/
def db_C7W : DB :=
  { employees := [{ id := 1, name := "Alice", role := "staff", active := 1 }],
    tasks := [t_C7W], shifts := [],
    nextEmployeeId := 2, nextTaskId := 2, nextShiftId := 1 }

/-- Witness for C7 (amended), at `db_C7W`. -/
theorem claim_C7_witness :
    ({ id := t_C7W.id, title := t_C7W.title, ename := joinName db_C7W t_C7W,
       status := t_C7W.status, deadline := t_C7W.deadline } : TaskRow) ∈
      list_tasks_rows none db_C7W ∧
    (t_C7W.assignee_id = none →
      pyOrStr (joinName db_C7W t_C7W) "unassigned" = "unassigned") ∧
    (∀ a, t_C7W.assignee_id = some a →
      db_C7W.employees.find? (fun e => e.id == a) = none →
      pyOrStr (joinName db_C7W t_C7W) "unassigned" = "unassigned") ∧
    (∀ a e, t_C7W.assignee_id = some a →
      db_C7W.employees.find? (fun e => e.id == a) = some e → e.name ≠ "" →
      pyOrStr (joinName db_C7W t_C7W) "unassigned" = e.name) ∧
    (∀ a e, t_C7W.assignee_id = some a →
      db_C7W.employees.find? (fun e => e.id == a) = some e → e.name = "" →
      pyOrStr (joinName db_C7W t_C7W) "unassigned" = "unassigned") ∧
    (t_C7W.deadline = none → pyOrStr t_C7W.deadline "-" = "-") :=
  claim_C7 db_C7W none t_C7W (List.mem_singleton.mpr rfl)
    (fun s hs => by cases hs)

/-- C8: on a store already containing the three tables, `init_db` is a
no-op (no error, no data loss, no duplicate tables, state unchanged);
on the fresh store it creates exactly the three tables, empty; and
re-running it after any first run changes nothing further. -/
theorem claim_C8 (s : Store) (h1 : s.employeesTab ≠ none)
    (h2 : s.tasksTab ≠ none) (h3 : s.shiftsTab ≠ none) :
    init_db s = s ∧
    (∀ s' : Store, init_db (init_db s') = init_db s') ∧
    init_db Store.fresh =
      { Store.fresh with employeesTab := some [], tasksTab := some [],
                         shiftsTab := some [] } := by
  refine ⟨?_, ?_, rfl⟩
  · cases s with
    | mk e tt sh n1 n2 n3 =>
      cases e with
      | none => exact absurd rfl h1
      | some e' =>
        cases tt with
        | none => exact absurd rfl h2
        | some t' =>
          cases sh with
          | none => exact absurd rfl h3
          | some s' => rfl
  · intro s'
    simp [init_db]

/-- A concrete already-initialized store used to witness C8. -/
def store_C8 : Store :=
  { employeesTab := some [{ id := 1, name := "A", role := "staff", active := 1 }],
    tasksTab := some [], shiftsTab := some [],
    nextEmployeeId := 2, nextTaskId := 1, nextShiftId := 1 }

/-- Witness for C8: re-initializing `store_C8` is exactly the identity,
its one stored employee row included. -/
theorem claim_C8_witness :
    init_db store_C8 = store_C8 ∧
    (∀ s' : Store, init_db (init_db s') = init_db s') ∧
    init_db Store.fresh =
      { Store.fresh with employeesTab := some [], tasksTab := some [],
                         shiftsTab := some [] } :=
  claim_C8 store_C8 (by simp [store_C8]) (by simp [store_C8])
    (by simp [store_C8])

/-- C9: `export_csv` yields one file per table, named `<table>.csv`,
whose first record is that table's column names and which has one
further record per stored row; and in the concrete round-trip scenario
(three employees and two tasks added to a fresh initialized store,
one task assigned and one not) `employees.csv` carries 4 records and
`tasks.csv` 3. -/
theorem claim_C9 :
    (∀ db : DB, ∃ r1 r2 r3,
      export_csv db =
        [("employees.csv", tableCols "employees" :: r1),
         ("tasks.csv", tableCols "tasks" :: r2),
         ("shifts.csv", tableCols "shifts" :: r3)] ∧
      r1.length = db.employees.length ∧ r2.length = db.tasks.length ∧
      r3.length = db.shifts.length) ∧
    (∃ dbf : DB,
      (add_employee "Alice" "manager" (Store.toDB (init_db Store.fresh))).bind
        (fun d => (add_employee "Bob" "staff" d).bind
          (fun d => (add_employee "Carol" "staff" d).map
            (fun d => add_task "T2" "" none none dtW
              (add_task "T1" "" (some 1) none dtW d)))) = .ok dbf ∧
      (export_csv dbf).map (fun f => (f.1, f.2.length)) =
        [("employees.csv", 4), ("tasks.csv", 3), ("shifts.csv", 1)]) := by
  constructor
  · intro db
    exact ⟨_, _, _, rfl, List.length_map _ _, List.length_map _ _,
      List.length_map _ _⟩
  · exact ⟨_, rfl, by decide⟩

/-- C10: `update_task_status` touches nothing but the matched task's
`status` and `updated` fields: employees, shifts and the id counters
are unchanged, the task list keeps its length and order, every task
keeps its `id`, `title`, `description`, `assignee_id`, `deadline` and
`created`, and every task whose id differs from the target is entirely
unchanged. -/
theorem claim_C10 (db : DB) (tid : Nat) (s : String) (now : PyDateTime)
    (db' : DB) (h : update_task_status tid s now db = .ok db') :
    db'.employees = db.employees ∧ db'.shifts = db.shifts ∧
    db'.nextEmployeeId = db.nextEmployeeId ∧
    db'.nextTaskId = db.nextTaskId ∧ db'.nextShiftId = db.nextShiftId ∧
    db'.tasks.length = db.tasks.length ∧
    List.Forall₂ (fun t t' : Task =>
      t'.id = t.id ∧ t'.title = t.title ∧ t'.description = t.description ∧
      t'.assignee_id = t.assignee_id ∧ t'.deadline = t.deadline ∧
      t'.created = t.created ∧ (t.id ≠ tid → t' = t)) db.tasks db'.tasks := by
  unfold update_task_status at h
  split at h
  · cases h
  · injection h with h
    subst h
    refine ⟨rfl, rfl, rfl, rfl, rfl, List.length_map _ _, ?_⟩
    rw [List.forall₂_map_right_iff, List.forall₂_same]
    intro t ht
    by_cases hc : t.id = tid
    · simp [hc]
    · simp [hc]

/-- The database `dbW` after updating task 1 to `done` at `dtW`. -/
def dbW' : DB :=
  { dbW with
    tasks := [
      { id := 1, title := "t", description := some "",
        assignee_id := none, status := "done", deadline := none,
        created := "2024-01-01 00:00", updated := strftimeDateFmt dtW }] }

/-- Witness for C10: the concrete one-task update touches only the
status and updated fields. -/
theorem claim_C10_witness :
    dbW'.employees = dbW.employees ∧ dbW'.shifts = dbW.shifts ∧
    dbW'.nextEmployeeId = dbW.nextEmployeeId ∧
    dbW'.nextTaskId = dbW.nextTaskId ∧ dbW'.nextShiftId = dbW.nextShiftId ∧
    dbW'.tasks.length = dbW.tasks.length ∧
    List.Forall₂ (fun t t' : Task =>
      t'.id = t.id ∧ t'.title = t.title ∧ t'.description = t.description ∧
      t'.assignee_id = t.assignee_id ∧ t'.deadline = t.deadline ∧
      t'.created = t.created ∧ (t.id ≠ 1 → t' = t)) dbW.tasks dbW'.tasks :=
  claim_C10 dbW 1 "done" dtW dbW' rfl

end OWM
